import Mathlib

/-!
Verification of the payment-gateway transaction engine (provider adapters,
access-token manager, admission gate, reconciliation/status-check logic).

The TypeScript source is shallowly embedded: each operation becomes a pure
Lean function from its inputs (request fields, current ledger contents, and
the outcome of each outbound HTTP call, passed in explicitly) to its outputs
(the normalized response envelope, the new ledger contents, and a trace of
the observable effects it performed, in order).  Network plumbing such as
URLs, headers and subscription keys is abstracted into the fetch-outcome
parameters; Date-valued bookkeeping fields (created_at, completed_at,
callback_time, updatedAt) are omitted since no property concerns them.
-/

namespace Payie

/-! ## JS-like JSON values

A first-order model of the JavaScript values the engine passes around.
Objects are modelled as cons-lists of key/value pairs built into the
inductive itself (`objNil`/`objCons`), with `JsVal.obj` as a smart
constructor from an association list.  A missing property reads as `none`,
mirroring `undefined`. -/

inductive JsVal where
  | null
  | bool (b : Bool)
  | num (n : Int)
  | str (s : String)
  | objNil
  | objCons (key : String) (val : JsVal) (rest : JsVal)
  deriving DecidableEq, Repr

def JsVal.obj (fields : List (String × JsVal)) : JsVal :=
  fields.foldr (fun kv acc => JsVal.objCons kv.1 kv.2 acc) JsVal.objNil

/-- Property access `v[key]`; `none` models `undefined`. -/
def JsVal.get : JsVal → String → Option JsVal
  | .objCons k v rest, key => if k = key then some v else rest.get key
  | _, _ => none

/-- JavaScript truthiness of a value. -/
def JsVal.truthy : JsVal → Bool
  | .null => false
  | .bool b => b
  | .num n => n != 0
  | .str s => s != ""
  | .objNil => true
  | .objCons _ _ _ => true

/-- Truthiness of a possibly-missing property (`undefined` is falsy). -/
def optTruthy : Option JsVal → Bool
  | none => false
  | some v => v.truthy

/-- A possibly-null JS value stored into a document field. -/
def optJs : Option JsVal → JsVal
  | none => JsVal.null
  | some v => v

/-- `toLowerCase()` (structural, so that proofs can evaluate it). -/
def strLower (s : String) : String :=
  ⟨s.data.map Char.toLower⟩

/-- `toUpperCase()` (structural). -/
def strUpper (s : String) : String :=
  ⟨s.data.map Char.toUpper⟩

/-- Leading-match test used by the substring search. -/
def leadsWith : List Char → List Char → Bool
  | [], _ => true
  | _ :: _, [] => false
  | a :: as, b :: bs => a == b && leadsWith as bs

def hasSubAux (pat : List Char) : List Char → Bool
  | [] => leadsWith pat []
  | c :: cs => leadsWith pat (c :: cs) || hasSubAux pat cs

/-- `indexOf(pat) >= 0`: substring containment test. -/
def containsSub (s pat : String) : Bool :=
  hasSubAux pat.data s.data

def isSpaceChar (c : Char) : Bool :=
  c == ' ' || c == '\t' || c == '\n' || c == '\r'

/-- `trim()` (structural): strip leading and trailing whitespace. -/
def strTrim (s : String) : String :=
  ⟨((s.data.reverse.dropWhile isSpaceChar).reverse).dropWhile isSpaceChar⟩

/-! ## Constants (src utils/constants) -/

def STATUS_CODES.OK : Nat := 200
def STATUS_CODES.CREATED : Nat := 201
def STATUS_CODES.ACCEPTED : Nat := 202
def STATUS_CODES.BAD_REQUEST : Nat := 400
def STATUS_CODES.NOT_FOUND : Nat := 404
def STATUS_CODES.UNAUTHORIZED : Nat := 401
def STATUS_CODES.UNPROCESSABLE_ENTITY : Nat := 422
def STATUS_CODES.INTERNAL_SERVER_ERROR : Nat := 500
def STATUS_CODES.SERVICE_UNAVAILABLE : Nat := 503
def STATUS_CODES.HTTP_GATEWAY_TIMEOUT : Nat := 504

def TRANS_STATUS.CANCELLED : String := "CANCELLED"
def TRANS_STATUS.COMPLETED : String := "COMPLETED"
def TRANS_STATUS.FAILED : String := "FAILED"
def TRANS_STATUS.PENDING : String := "PENDING"
def TRANS_STATUS.LOGGED : String := "LOGGED"
def TRANS_STATUS.SUCCESSFUL : String := "SUCCESS"

def TRANS_TYPES.COLLECTION : String := "collection"
def TRANS_TYPES.PAYOUT : String := "payout"
def TRANS_TYPES.PURCHASE : String := "purchase"
def TRANS_TYPES.VALIDATION : String := "validation"

def ERROR_MESSAGES.NON_UNIQUE_TRANSACTION : String :=
  "Transaction already exists. Please provide a unique py_ref."
def ERROR_MESSAGES.MISSING_API_REF : String :=
  "Missing api reference (py_ref)."
def ERROR_MESSAGES.MISSING_PROVIDER_HEADER : String :=
  "Missing provider header."
def ERROR_MESSAGES.UNKNOWN_SERVICE_PROVIDER : String :=
  "Unknown service provider."

/-! ## Response envelope (src utils/utilities: IResponse, createResponse) -/

structure IResponse where
  code : Nat
  success : Bool
  message : String
  data : JsVal
  deriving DecidableEq, Repr

def getStatusCodeMessage (code : Nat) (extraInfo : String) : String :=
  if code = STATUS_CODES.OK then
    strTrim ("Request completed successfully. " ++ extraInfo)
  else if code = STATUS_CODES.SERVICE_UNAVAILABLE then
    strTrim ("Service is unavailable. " ++ extraInfo)
  else if code = STATUS_CODES.BAD_REQUEST then
    strTrim ("Invalid request. " ++ extraInfo)
  else if code = STATUS_CODES.HTTP_GATEWAY_TIMEOUT ∨
          code = STATUS_CODES.INTERNAL_SERVER_ERROR then
    strTrim ("Encountered an unexpected condition. " ++ extraInfo)
  else if code = STATUS_CODES.UNPROCESSABLE_ENTITY ∨
          code = STATUS_CODES.NOT_FOUND then
    strTrim ("Request Failed. " ++ extraInfo)
  else
    strTrim ("Unknown status code: " ++ toString code ++ ". " ++ extraInfo)

def createResponse (code : Nat) (data : JsVal) (extraInfo : String) : IResponse :=
  { code := code
    success := decide (code < 300)
    message := getStatusCodeMessage code extraInfo
    data := data }

/-- Structural image of an IResponse when stored into a document field. -/
def IResponse.toJs (r : IResponse) : JsVal :=
  JsVal.obj [("code", .num (Int.ofNat r.code)), ("success", .bool r.success),
             ("message", .str r.message), ("data", r.data)]

/-! ## Outbound call outcomes

`FetchOutcome` models a `fetch(...).then(k => k.json())` style call:
either the promise chain resolved with a parsed JSON body, or it rejected
with an error value.  `HttpOutcome` models the initiate POST whose handler
reads `response.status`/`response.statusText` without parsing a body.
`ConfirmFetch` models the status-query GET, whose handler reads
`response.ok`, `response.statusText` and the parsed body. -/

inductive FetchOutcome where
  | json (body : JsVal)
  | err (e : JsVal)
  deriving DecidableEq, Repr

inductive HttpOutcome where
  | resp (status : Nat) (statusText : String)
  | err (msg : String)
  deriving DecidableEq, Repr

inductive ConfirmFetch where
  | reply (ok : Bool) (statusText : String) (body : JsVal)
  | fail
  deriving DecidableEq, Repr

/-! ## Access Token Manager (MtnMomo.getAccessToken) -/

def getAccessToken (tokenFetch : FetchOutcome) : IResponse :=
  match tokenFetch with
  | .json response =>
      if optTruthy (response.get "access_token") &&
         optTruthy (response.get "token_type") &&
         optTruthy (response.get "expires_in") then
        createResponse STATUS_CODES.OK response ""
      else
        createResponse STATUS_CODES.UNPROCESSABLE_ENTITY response
          "Access Token Details not found"
  | .err e =>
      createResponse STATUS_CODES.INTERNAL_SERVER_ERROR e
        "Access Token creation failed"

/-! ## Transaction ledger (the momo ips collection) -/

structure TransRecord where
  reference : String
  py_ref : String
  msisdn : String
  amount : Int
  status : String
  transType : String
  x_reference_id : String
  provider_transaction_id : Option JsVal
  message : String
  callback_received : Bool
  completed_by : Option String
  meta : JsVal
  deriving DecidableEq, Repr

/-- `findOne({reference: ref})`: first document matching the reference. -/
def findOneByRef (st : List TransRecord) (ref : String) : Option TransRecord :=
  st.find? (fun r => r.reference == ref)

/-- `updateOne(filter, {$set: ...})`: patch the first document matching. -/
def updateFirst {α : Type} (st : List α) (p : α → Bool) (patch : α → α) : List α :=
  match st with
  | [] => []
  | r :: rest => if p r then patch r :: rest else r :: updateFirst rest p patch

/-! ## Observable effects -/

inductive Event where
  | tokenCall
  | initiateCall
  | statusCall
  | lookupCall
  | insertRec (r : TransRecord)
  | msgLog (msg : String)
  deriving DecidableEq, Repr

/-! ## Adapter requests -/

structure MomoReq where
  gatewayRef : String
  /-- `""` models a missing or empty msisdn (both are JS-falsy). -/
  msisdn : String
  /-- The `Number.parseInt(details.amount)` result; `none` models `NaN`. -/
  amount : Option Int
  pyRef : String
  /-- `""` models a missing currency (defaulted to UGX by the adapter). -/
  currency : String
  /-- `""` models a missing description. -/
  description : String
  deriving DecidableEq, Repr

/-- `!amount` is true for `NaN` and `0`. -/
def amountTruthy : Option Int → Bool
  | none => false
  | some a => a != 0

structure OpOut where
  events : List Event
  ledger : List TransRecord
  resp : IResponse
  deriving DecidableEq, Repr

/-! ## MtnMomo.collect -/

/-- The document `collect` inserts before the initiate call. -/
def initRecord (req : MomoReq) (referenceId : String) (transType : String)
    (amount : Int) : TransRecord :=
  { reference := req.gatewayRef
    py_ref := req.pyRef
    msisdn := req.msisdn
    amount := amount
    status := TRANS_STATUS.PENDING
    transType := transType
    x_reference_id := referenceId
    provider_transaction_id := none
    message := "Transaction Initiated"
    callback_received := false
    completed_by := none
    meta := JsVal.obj [] }

def MtnMomo.collect (st : List TransRecord) (req : MomoReq) (referenceId : String)
    (tokenFetch : FetchOutcome) (initiate : HttpOutcome) : OpOut :=
  if req.msisdn = "" then
    ⟨[], st,
      createResponse STATUS_CODES.BAD_REQUEST
        (JsVal.obj [("gateway_ref", .str req.gatewayRef), ("py_ref", .str req.pyRef)])
        "Missing msisdn."⟩
  else if amountTruthy req.amount = false then
    ⟨[], st,
      createResponse STATUS_CODES.BAD_REQUEST
        (JsVal.obj [("gateway_ref", .str req.gatewayRef), ("py_ref", .str req.pyRef)])
        "Missing amount."⟩
  else
    let amount := req.amount.getD 0
    let accessTokenRequest := getAccessToken tokenFetch
    if accessTokenRequest.code = STATUS_CODES.OK then
      let rec0 := initRecord req referenceId TRANS_TYPES.COLLECTION amount
      let st1 := st ++ [rec0]
      match initiate with
      | .resp status statusText =>
          if status = STATUS_CODES.OK ∨ status = STATUS_CODES.ACCEPTED then
            let st2 := updateFirst st1 (fun r => r.reference == req.gatewayRef)
              (fun r => { r with
                status := TRANS_STATUS.COMPLETED
                completed_by := some "REQUEST"
                message := toString status ++ "-" ++ statusText })
            let transaction := (findOneByRef st2 req.gatewayRef).getD rec0
            ⟨[.tokenCall, .insertRec rec0, .initiateCall], st2,
              createResponse STATUS_CODES.OK
                (JsVal.obj [("msisdn", .str req.msisdn), ("amount", .num amount),
                  ("message", .str "Transaction successfully completed."),
                  ("status", .str transaction.status),
                  ("provider_id", optJs transaction.provider_transaction_id),
                  ("gateway_ref", .str req.gatewayRef), ("py_ref", .str req.pyRef)]) ""⟩
          else
            let record := (findOneByRef st1 req.gatewayRef).getD rec0
            let st2 := updateFirst st1 (fun r => r == record)
              (fun r => { r with
                status := TRANS_STATUS.FAILED
                completed_by := some "REQUEST"
                message := if statusText = "" then "Transaction Request Failed." else statusText })
            ⟨[.tokenCall, .insertRec rec0, .initiateCall,
                .msgLog (toString status ++ "-" ++ statusText)], st2,
              createResponse STATUS_CODES.UNPROCESSABLE_ENTITY
                (JsVal.obj [("msisdn", .str req.msisdn), ("amount", .num amount),
                  ("message", .str record.message), ("status", .str record.status),
                  ("gateway_ref", .str req.gatewayRef), ("py_ref", .str req.pyRef)]) ""⟩
      | .err m =>
          ⟨[.tokenCall, .insertRec rec0, .initiateCall, .msgLog m], st1,
            createResponse STATUS_CODES.INTERNAL_SERVER_ERROR
              (JsVal.obj [("gateway_ref", .str req.gatewayRef),
                ("py_ref", .str req.pyRef), ("error", .str m)]) m⟩
    else
      ⟨[.tokenCall], st, accessTokenRequest⟩

/-! ## MtnMomo.transfer -/

def MtnMomo.transfer (st : List TransRecord) (req : MomoReq) (referenceId : String)
    (tokenFetch : FetchOutcome) (initiate : HttpOutcome) : OpOut :=
  if req.msisdn = "" then
    ⟨[], st,
      createResponse STATUS_CODES.BAD_REQUEST
        (JsVal.obj [("gateway_ref", .str req.gatewayRef), ("py_ref", .str req.pyRef)])
        "missing msisdn."⟩
  else if amountTruthy req.amount = false then
    ⟨[], st,
      createResponse STATUS_CODES.BAD_REQUEST
        (JsVal.obj [("gateway_ref", .str req.gatewayRef), ("py_ref", .str req.pyRef)])
        "missing amount."⟩
  else
    let amount := req.amount.getD 0
    let accessTokenRequest := getAccessToken tokenFetch
    if accessTokenRequest.code = STATUS_CODES.OK then
      let rec0 := initRecord req referenceId TRANS_TYPES.PAYOUT amount
      let st1 := st ++ [rec0]
      match initiate with
      | .resp status statusText =>
          if status = STATUS_CODES.OK ∨ status = STATUS_CODES.ACCEPTED then
            let st2 := updateFirst st1 (fun r => r.reference == req.gatewayRef)
              (fun r => { r with
                status := TRANS_STATUS.COMPLETED
                completed_by := some "REQUEST"
                message := toString status ++ "-" ++ statusText })
            let transaction := (findOneByRef st2 req.gatewayRef).getD rec0
            ⟨[.tokenCall, .insertRec rec0, .initiateCall], st2,
              createResponse STATUS_CODES.OK
                (JsVal.obj [("msisdn", .str req.msisdn), ("amount", .num amount),
                  ("message", .str "Transaction successfully completed."),
                  ("status", .str transaction.status),
                  ("provider_id", optJs transaction.provider_transaction_id),
                  ("gateway_ref", .str req.gatewayRef), ("py_ref", .str req.pyRef)]) ""⟩
          else
            let record := (findOneByRef st1 req.gatewayRef).getD rec0
            let st2 := updateFirst st1 (fun r => r == record)
              (fun r => { r with
                status := TRANS_STATUS.FAILED
                completed_by := some "REQUEST"
                message := if statusText = "" then "Transaction Request Failed." else statusText })
            ⟨[.tokenCall, .insertRec rec0, .initiateCall,
                .msgLog (toString status ++ "-" ++ statusText)], st2,
              createResponse STATUS_CODES.UNPROCESSABLE_ENTITY
                (JsVal.obj [("msisdn", .str req.msisdn), ("amount", .num amount),
                  ("message", .str record.message), ("status", .str record.status),
                  ("gateway_ref", .str req.gatewayRef), ("py_ref", .str req.pyRef)]) ""⟩
      | .err m =>
          ⟨[.tokenCall, .insertRec rec0, .initiateCall, .msgLog m], st1,
            createResponse STATUS_CODES.INTERNAL_SERVER_ERROR
              (JsVal.obj [("gateway_ref", .str req.gatewayRef),
                ("py_ref", .str req.pyRef)]) m⟩
    else
      ⟨[.tokenCall], st, accessTokenRequest⟩

/-! ## MtnMomo.confirmTransactionStatus

The status-query step.  Its trailing `.catch` also swallows exceptions
thrown while examining the body (such as calling `toUpperCase` on a
non-string status), turning them into a bare 500 result with an empty
data object and empty extra message. -/

def MtnMomo.confirmTransactionStatus (tokenFetch : FetchOutcome)
    (statusFetch : ConfirmFetch) : List Event × IResponse :=
  let accessTokenRequest := getAccessToken tokenFetch
  if accessTokenRequest.code = STATUS_CODES.OK then
    match statusFetch with
    | .reply ok statusText data =>
        ([.tokenCall, .statusCall],
          if ok then
            match data.get "status", data.get "financialTransactionId" with
            | some (.str s), some _ =>
                if strUpper s = "SUCCESSFUL" then
                  createResponse STATUS_CODES.OK data ""
                else
                  createResponse STATUS_CODES.UNPROCESSABLE_ENTITY data
                    "Transaction Check Incomplete. Missing Response Data"
            | some _, some _ =>
                createResponse STATUS_CODES.INTERNAL_SERVER_ERROR (JsVal.obj []) ""
            | _, _ =>
                createResponse STATUS_CODES.UNPROCESSABLE_ENTITY data
                  "Transaction Check Incomplete. Missing Response Data"
          else
            createResponse STATUS_CODES.UNPROCESSABLE_ENTITY (JsVal.obj []) statusText)
    | .fail =>
        ([.tokenCall, .statusCall],
          createResponse STATUS_CODES.INTERNAL_SERVER_ERROR (JsVal.obj []) "")
  else
    ([.tokenCall], accessTokenRequest)

/-! ## MtnMomo.checkTransactionStatus -/

structure CheckReq where
  gatewayRef : String
  pyRef : String
  /-- `details.id`; `""` models a missing id. -/
  id : String
  deriving DecidableEq, Repr

/-- A run either hands a response to the callback or lets a runtime
exception escape the engine. -/
inductive CheckOut where
  | resp (r : IResponse)
  | thrown (msg : String)
  deriving DecidableEq, Repr

structure CheckResult where
  events : List Event
  ledger : List TransRecord
  out : CheckOut
  deriving DecidableEq, Repr

def MtnMomo.checkTransactionStatus (st : List TransRecord) (req : CheckReq)
    (tokenFetch : FetchOutcome) (statusFetch : ConfirmFetch) : CheckResult :=
  if req.id = "" then
    ⟨[], st, .resp (createResponse STATUS_CODES.BAD_REQUEST
      (JsVal.obj [("gateway_ref", .str req.gatewayRef), ("py_ref", .str req.pyRef)])
      "Missing transaction id")⟩
  else
    match findOneByRef st req.id with
    | none =>
        ⟨[], st, .resp (createResponse STATUS_CODES.BAD_REQUEST
          (JsVal.obj [("message", .str ("Transaction with id " ++ req.id ++ " not found.")),
            ("gateway_ref", .str req.gatewayRef), ("py_ref", .str req.pyRef)]) "")⟩
    | some notification =>
        if notification.status = "SUCCESSFUL" then
          ⟨[], st, .resp (createResponse STATUS_CODES.OK
            (JsVal.obj [("msisdn", .str notification.msisdn),
              ("amount", .num notification.amount),
              ("message", .str "Transaction successfully completed."),
              ("status", .str notification.status),
              ("network_id", optJs notification.provider_transaction_id),
              ("gateway_ref", .str req.gatewayRef), ("py_ref", .str req.pyRef)]) "")⟩
        else if notification.status = TRANS_STATUS.FAILED ∨
                notification.status = TRANS_STATUS.CANCELLED then
          ⟨[], st, .resp (createResponse STATUS_CODES.INTERNAL_SERVER_ERROR
            (JsVal.obj [("msisdn", .str notification.msisdn),
              ("amount", .num notification.amount),
              ("message", .str notification.message),
              ("status", .str notification.status),
              ("gateway_ref", .str req.gatewayRef), ("py_ref", .str req.pyRef)])
            notification.message)⟩
        else
          let verified := MtnMomo.confirmTransactionStatus tokenFetch statusFetch
          let evs := verified.1
          let verification := verified.2
          -- `if (verification)`: an IResponse object is always truthy, so the
          -- generic verification-failure branch of the source is dead code.
          if verification.code = STATUS_CODES.OK then
            let processorRef := verification.data.get "financialTransactionId"
            -- in the OK case the body status is known to be a string
            let newStatus := match verification.data.get "status" with
              | some (.str s) => s
              | _ => ""
            let st2 := updateFirst st (fun r => r == notification)
              (fun r => { r with
                status := newStatus
                provider_transaction_id := processorRef
                meta := verification.data
                message := "Transaction Completed Successfully"
                completed_by := some "TRANS_CHECK" })
            ⟨evs, st2, .resp (createResponse STATUS_CODES.OK
              (JsVal.obj [("status", .str newStatus),
                ("msisdn", .str notification.msisdn),
                ("amount", .num notification.amount),
                ("currency", JsVal.null),
                ("network_id", optJs processorRef),
                ("gateway_ref", .str req.gatewayRef), ("py_ref", .str req.pyRef),
                ("message", .str "Transaction successfully completed.")]) "")⟩
          else
            -- defaults before classification
            let finish := fun (status message : String) (statusCode : Nat) =>
              let st2 := updateFirst st (fun r => r == notification)
                (fun r => { r with
                  status := status
                  meta := verification.data
                  message := message
                  completed_by := some "TRANS_CHECK" })
              CheckResult.mk evs st2 (.resp (createResponse statusCode
                (JsVal.obj [("status", .str status),
                  ("msisdn", .str notification.msisdn),
                  ("amount", .num notification.amount),
                  ("currency", JsVal.null),
                  ("gateway_ref", .str req.gatewayRef), ("py_ref", .str req.pyRef),
                  ("message", .str message)]) message))
            if verification.data.truthy then
              match verification.data.get "status" with
              | some (.str t) =>
                  let tl := strLower t
                  if containsSub tl "cancelled" then
                    finish TRANS_STATUS.CANCELLED "Transaction Cancelled"
                      STATUS_CODES.INTERNAL_SERVER_ERROR
                  else if containsSub tl "pending" || containsSub tl "progress" then
                    finish TRANS_STATUS.PENDING "Transaction still in progress"
                      STATUS_CODES.HTTP_GATEWAY_TIMEOUT
                  else
                    finish t t verification.code
              | _ =>
                  -- verification.data has no string status property:
                  -- calling toLowerCase on it raises a TypeError that
                  -- escapes the engine before any ledger write
                  ⟨evs, st, .thrown "TypeError"⟩
            else
              finish TRANS_STATUS.PENDING "Transaction still in progress"
                STATUS_CODES.HTTP_GATEWAY_TIMEOUT

/-! ## MtnMomo.validateAccount -/

def MtnMomo.validateAccount (req : MomoReq) (tokenFetch : FetchOutcome)
    (lookupFetch : FetchOutcome) : List Event × IResponse :=
  if req.msisdn = "" then
    ([], createResponse STATUS_CODES.BAD_REQUEST
      (JsVal.obj [("error", .str "msisdn missing"),
        ("gateway_ref", .str req.gatewayRef), ("py_ref", .str req.pyRef)]) "")
  else
    -- the token result is fetched but never inspected: the lookup call is
    -- issued with whatever access_token property the result data carries
    let _accessTokenRequest := getAccessToken tokenFetch
    match lookupFetch with
    | .json response =>
        if optTruthy (response.get "name") then
          ([.tokenCall, .lookupCall], createResponse STATUS_CODES.OK
            (JsVal.obj [("valid", .bool true),
              ("name", optJs (response.get "name")),
              ("msisdn", .str req.msisdn)]) "")
        else
          ([.tokenCall, .lookupCall], createResponse STATUS_CODES.UNPROCESSABLE_ENTITY
            response "MSISDN User not found")
    | .err e =>
        ([.tokenCall, .lookupCall], createResponse STATUS_CODES.INTERNAL_SERVER_ERROR
          e "MSISDN validation action failed")

/-! ## Transactions log collection and the card webhook path -/

structure LogRecord where
  gatewayRef : String
  level : String
  message : Option String
  /-- `requestBody.py_ref` of the logged request, if present. -/
  requestBody_py_ref : Option String
  responseBody : Option JsVal
  /-- absent until a webhook write adds it via `$set`. -/
  status : Option String
  deriving DecidableEq, Repr

/-- Card.updateLogByWebhook: derive a status from the payload success flag,
patch the first log record whose gatewayRef equals the pushed txRef (a miss
patches nothing and still succeeds), and acknowledge 200. -/
def Card.updateLogByWebhook (stLog : List LogRecord) (details : JsVal) :
    List LogRecord × IResponse :=
  let status := if details.get "status" = some (.str "successful") then
    TRANS_STATUS.SUCCESSFUL else TRANS_STATUS.FAILED
  let stLog2 := updateFirst stLog
    (fun r => details.get "txRef" == some (.str r.gatewayRef))
    (fun r => { r with status := some status, responseBody := some details })
  (stLog2, createResponse STATUS_CODES.OK (JsVal.obj []) "")

/-- POST /webhook: run the resolved adapter handler and answer with its
response code as the HTTP status. -/
def webhookRoute (stLog : List LogRecord) (details : JsVal) :
    List LogRecord × Nat :=
  let handled := Card.updateLogByWebhook stLog details
  (handled.1, handled.2.code)

/-! ## Idempotency and admission gate (validateRequest middleware) -/

structure GateReq where
  gatewayRef : String
  /-- `""` models a missing py_ref in both body and query. -/
  pyRef : String
  /-- `""` models a missing service-provider header. -/
  providerHeader : String
  deriving DecidableEq, Repr

inductive GEvent where
  /-- insertTransactionLog of a rejection, with its message. -/
  | audit (msg : String)
  /-- res.status(code).json(response). -/
  | respondEv (code : Nat)
  /-- req.serviceProvider := resolved adapter. -/
  | attach (provider : String)
  /-- next(). -/
  | nextEv
  deriving DecidableEq, Repr

inductive GateResult where
  | rejected (resp : IResponse)
  | passed (provider : String)
  deriving DecidableEq, Repr

/-- `count({requestBody.py_ref: pyRef})` over the transactions log. -/
def countPyRef (logDb : List LogRecord) (pyRef : String) : Nat :=
  (logDb.filter (fun r => r.requestBody_py_ref == some pyRef)).length

/-- transactionExists: existence decided by count > 0. -/
def transactionExists (logDb : List LogRecord) (pyRef : String) : Bool :=
  decide (countPyRef logDb pyRef > 0)

def validateRequest (logDb : List LogRecord) (configuredProviders : List String)
    (req : GateReq) : List GEvent × GateResult :=
  if req.pyRef = "" then
    let response := createResponse STATUS_CODES.BAD_REQUEST
      (JsVal.obj [("gateway_ref", .str req.gatewayRef)])
      ERROR_MESSAGES.MISSING_API_REF
    ([.audit ERROR_MESSAGES.MISSING_API_REF, .respondEv response.code],
      .rejected response)
  else if transactionExists logDb req.pyRef then
    let response := createResponse STATUS_CODES.BAD_REQUEST
      (JsVal.obj [("gateway_ref", .str req.gatewayRef), ("py_ref", .str req.pyRef)])
      ERROR_MESSAGES.NON_UNIQUE_TRANSACTION
    ([.audit ERROR_MESSAGES.NON_UNIQUE_TRANSACTION, .respondEv response.code],
      .rejected response)
  else if req.providerHeader = "" then
    let response := createResponse STATUS_CODES.BAD_REQUEST
      (JsVal.obj [("gateway_ref", .str req.gatewayRef), ("py_ref", .str req.pyRef)])
      ERROR_MESSAGES.MISSING_PROVIDER_HEADER
    ([.audit ERROR_MESSAGES.MISSING_PROVIDER_HEADER, .respondEv response.code],
      .rejected response)
  else if (configuredProviders.contains req.providerHeader) = false then
    let response := createResponse STATUS_CODES.BAD_REQUEST
      (JsVal.obj [("gateway_ref", .str req.gatewayRef), ("py_ref", .str req.pyRef)])
      ERROR_MESSAGES.UNKNOWN_SERVICE_PROVIDER
    ([.audit ERROR_MESSAGES.UNKNOWN_SERVICE_PROVIDER, .respondEv response.code],
      .rejected response)
  else
    ([.attach req.providerHeader, .nextEv], .passed req.providerHeader)

/-! ## Ledger helper lemmas -/

theorem updateFirst_append_of_none {α : Type} {p : α → Bool} {f : α → α}
    {l1 l2 : List α} (h : ∀ a ∈ l1, p a = false) :
    updateFirst (l1 ++ l2) p f = l1 ++ updateFirst l2 p f := by
  induction l1 with
  | nil => rfl
  | cons a tl ih =>
      have ha := h a (by simp)
      simp only [List.cons_append, updateFirst, ha, Bool.false_eq_true, if_false,
        List.cons.injEq, true_and]
      exact ih (fun x hx => h x (by simp [hx]))

theorem updateFirst_singleton_pos {α : Type} {p : α → Bool} {f : α → α} {r : α}
    (h : p r = true) : updateFirst [r] p f = [f r] := by
  simp [updateFirst, h]

theorem mem_ref_ne_of_findOneByRef_none {st : List TransRecord} {g : String}
    (h : findOneByRef st g = none) : ∀ a ∈ st, a.reference ≠ g := by
  intro a ha
  have := List.find?_eq_none.mp h a ha
  simpa using this

theorem findOneByRef_append_single {st : List TransRecord} {r : TransRecord} {g : String}
    (h : findOneByRef st g = none) (hr : r.reference = g) :
    findOneByRef (st ++ [r]) g = some r := by
  unfold findOneByRef at *
  induction st with
  | nil => simp [List.find?, hr]
  | cons a tl ih =>
      have hane : ¬ ((fun x : TransRecord => x.reference == g) a) = true := by
        simpa using mem_ref_ne_of_findOneByRef_none h a (by simp)
      rw [List.cons_append,
        @List.find?_cons_of_neg _ (fun x => x.reference == g) a (tl ++ [r]) hane]
      rw [@List.find?_cons_of_neg _ (fun x => x.reference == g) a tl hane] at h
      exact ih h

theorem find?_updateFirst_self {st : List TransRecord} {g : String} {n : TransRecord}
    (h : st.find? (fun r => r.reference == g) = some n) (patch : TransRecord → TransRecord)
    (hp : (patch n).reference = n.reference) :
    (updateFirst st (fun r => r == n) patch).find? (fun r => r.reference == g)
      = some (patch n) := by
  induction st with
  | nil => simp [List.find?] at h
  | cons a tl ih =>
      by_cases hpa : ((fun x : TransRecord => x.reference == g) a) = true
      · rw [@List.find?_cons_of_pos _ (fun x => x.reference == g) a tl hpa] at h
        injection h with h'
        subst h'
        have hself : (a == a) = true := beq_self_eq_true a
        simp only [updateFirst, hself, if_true]
        have hpg : ((fun x : TransRecord => x.reference == g) (patch a)) = true := by
          simpa only [hp] using hpa
        rw [@List.find?_cons_of_pos _ (fun x => x.reference == g) (patch a) tl hpg]
      · rw [@List.find?_cons_of_neg _ (fun x => x.reference == g) a tl hpa] at h
        have hn : ((fun x : TransRecord => x.reference == g) n) = true :=
          @List.find?_some _ (fun x => x.reference == g) n tl h
        have hane : (a == n) = false := by
          apply beq_eq_false_iff_ne.mpr
          intro e
          subst e
          exact hpa hn
        simp only [updateFirst, hane, Bool.false_eq_true, if_false]
        rw [@List.find?_cons_of_neg _ (fun x => x.reference == g) a
          (updateFirst tl (fun r => r == n) patch) hpa]
        exact ih h

theorem truthy_of_get_some {v : JsVal} {k : String} {x : JsVal} (h : v.get k = some x) :
    v.truthy = true := by
  cases v with
  | objCons key val rest => rfl
  | null => simp [JsVal.get] at h
  | bool b => simp [JsVal.get] at h
  | num n => simp [JsVal.get] at h
  | str s => simp [JsVal.get] at h
  | objNil => simp [JsVal.get] at h

theorem ledger_after_update_ref (st : List TransRecord) (r : TransRecord) (g : String)
    (patch : TransRecord → TransRecord)
    (hfresh : findOneByRef st g = none) (hr : r.reference = g)
    (hp : (patch r).reference = r.reference) :
    findOneByRef (updateFirst (st ++ [r]) (fun x => x.reference == g) patch) g
      = some (patch r) := by
  have hall : ∀ a ∈ st, ((fun x : TransRecord => x.reference == g) a) = false := by
    intro a ha
    have := mem_ref_ne_of_findOneByRef_none hfresh a ha
    simpa using this
  rw [updateFirst_append_of_none hall]
  rw [@updateFirst_singleton_pos _ (fun x => x.reference == g) patch r (by simpa using hr)]
  exact findOneByRef_append_single hfresh (by rw [hp, hr])

theorem ledger_after_update_eq (st : List TransRecord) (r : TransRecord) (g : String)
    (patch : TransRecord → TransRecord)
    (hfresh : findOneByRef st g = none) (hr : r.reference = g)
    (hp : (patch r).reference = r.reference) :
    findOneByRef (updateFirst (st ++ [r]) (fun x => x == r) patch) g
      = some (patch r) := by
  have hall : ∀ a ∈ st, ((fun x : TransRecord => x == r) a) = false := by
    intro a ha
    have hne := mem_ref_ne_of_findOneByRef_none hfresh a ha
    apply beq_eq_false_iff_ne.mpr
    intro e
    subst e
    exact hne hr
  rw [updateFirst_append_of_none hall]
  rw [@updateFirst_singleton_pos _ (fun x => x == r) patch r (beq_self_eq_true r)]
  exact findOneByRef_append_single hfresh (by rw [hp, hr])

/-! ## Claim theorems -/

/-- C7: for every collect request that passes field validation and token
acquisition, a PENDING ledger record is inserted before the upstream
initiate endpoint is called; when the counterparty identifier or the
amount is missing, the operation returns 400 carrying both correlation
ids, performs no outbound call at all, and inserts nothing. -/
theorem c7_pending_insert_before_initiate
    (st : List TransRecord) (req : MomoReq) (referenceId : String)
    (tokenFetch : FetchOutcome) (initiate : HttpOutcome) :
    ((req.msisdn ≠ "" ∧ amountTruthy req.amount = true ∧
        (getAccessToken tokenFetch).code = STATUS_CODES.OK) →
      ∃ rest, (MtnMomo.collect st req referenceId tokenFetch initiate).events =
          Event.tokenCall ::
          Event.insertRec (initRecord req referenceId TRANS_TYPES.COLLECTION
            (req.amount.getD 0)) ::
          Event.initiateCall :: rest ∧
        (initRecord req referenceId TRANS_TYPES.COLLECTION (req.amount.getD 0)).status
          = TRANS_STATUS.PENDING) ∧
    ((req.msisdn = "" ∨ amountTruthy req.amount = false) →
      (MtnMomo.collect st req referenceId tokenFetch initiate).resp.code
          = STATUS_CODES.BAD_REQUEST ∧
      (MtnMomo.collect st req referenceId tokenFetch initiate).resp.data.get "gateway_ref"
          = some (.str req.gatewayRef) ∧
      (MtnMomo.collect st req referenceId tokenFetch initiate).resp.data.get "py_ref"
          = some (.str req.pyRef) ∧
      (MtnMomo.collect st req referenceId tokenFetch initiate).events = [] ∧
      (MtnMomo.collect st req referenceId tokenFetch initiate).ledger = st) := by
  constructor
  · rintro ⟨hm, ha, htok⟩
    cases initiate with
    | resp s t =>
        by_cases h2 : s = STATUS_CODES.OK ∨ s = STATUS_CODES.ACCEPTED
        · refine ⟨[], ?_, rfl⟩
          simp [MtnMomo.collect, hm, ha, htok, h2]
        · refine ⟨[Event.msgLog (toString s ++ "-" ++ t)], ?_, rfl⟩
          simp [MtnMomo.collect, hm, ha, htok, h2]
    | err m =>
        refine ⟨[Event.msgLog m], ?_, rfl⟩
        simp [MtnMomo.collect, hm, ha, htok]
  · intro hmiss
    by_cases hm : req.msisdn = ""
    · have hsel : MtnMomo.collect st req referenceId tokenFetch initiate =
          ⟨[], st, createResponse STATUS_CODES.BAD_REQUEST
            (JsVal.obj [("gateway_ref", .str req.gatewayRef), ("py_ref", .str req.pyRef)])
            "Missing msisdn."⟩ := by
        simp [MtnMomo.collect, hm]
      rw [hsel]
      exact ⟨rfl, rfl, rfl, rfl, rfl⟩
    · have ha : amountTruthy req.amount = false := by
        rcases hmiss with h | h
        · exact absurd h hm
        · exact h
      have hsel : MtnMomo.collect st req referenceId tokenFetch initiate =
          ⟨[], st, createResponse STATUS_CODES.BAD_REQUEST
            (JsVal.obj [("gateway_ref", .str req.gatewayRef), ("py_ref", .str req.pyRef)])
            "Missing amount."⟩ := by
        simp [MtnMomo.collect, hm, ha]
      rw [hsel]
      exact ⟨rfl, rfl, rfl, rfl, rfl⟩

/-- C7 witness: concrete instantiations of both halves. -/
theorem c7_witness :
    (∃ rest, (MtnMomo.collect [] ⟨"g1", "256700000000", some 1000, "abc-1", "", ""⟩ "x1"
        (.json (JsVal.obj [("access_token", .str "tok"), ("token_type", .str "Bearer"),
          ("expires_in", .num 3600)]))
        (.resp 202 "Accepted")).events =
        Event.tokenCall ::
        Event.insertRec (initRecord ⟨"g1", "256700000000", some 1000, "abc-1", "", ""⟩
          "x1" TRANS_TYPES.COLLECTION
          ((⟨"g1", "256700000000", some 1000, "abc-1", "", ""⟩ : MomoReq).amount.getD 0)) ::
        Event.initiateCall :: rest ∧
      (initRecord ⟨"g1", "256700000000", some 1000, "abc-1", "", ""⟩ "x1"
        TRANS_TYPES.COLLECTION
        ((⟨"g1", "256700000000", some 1000, "abc-1", "", ""⟩ : MomoReq).amount.getD 0)).status
        = TRANS_STATUS.PENDING) ∧
    (MtnMomo.collect [] ⟨"g1", "", some 1000, "abc-1", "", ""⟩ "x1"
      (.json (JsVal.obj [])) (.resp 202 "Accepted")).resp.code
        = STATUS_CODES.BAD_REQUEST := by
  constructor
  · exact (c7_pending_insert_before_initiate [] ⟨"g1", "256700000000", some 1000, "abc-1", "", ""⟩
      "x1" (.json (JsVal.obj [("access_token", .str "tok"), ("token_type", .str "Bearer"),
        ("expires_in", .num 3600)])) (.resp 202 "Accepted")).1
      ⟨by decide, by decide, by decide⟩
  · exact ((c7_pending_insert_before_initiate [] ⟨"g1", "", some 1000, "abc-1", "", ""⟩
      "x1" (.json (JsVal.obj [])) (.resp 202 "Accepted")).2 (Or.inl rfl)).1

/-- C10: when the upstream initiate call of a collect comes back with a
non-2xx HTTP status, the 422 envelope handed to the caller carries the
ledger record as read before the FAILED update: data.status is PENDING and
data.message is the initial "Transaction Initiated", not the newly
persisted FAILED state or the upstream status text. -/
theorem c10_failure_envelope_shows_preupdate_record
    (st : List TransRecord) (req : MomoReq) (referenceId : String)
    (tokenFetch : FetchOutcome) (s : Nat) (t : String)
    (hfresh : findOneByRef st req.gatewayRef = none)
    (hm : req.msisdn ≠ "") (ha : amountTruthy req.amount = true)
    (htok : (getAccessToken tokenFetch).code = STATUS_CODES.OK)
    (hs : ¬ (s = STATUS_CODES.OK ∨ s = STATUS_CODES.ACCEPTED)) :
    (MtnMomo.collect st req referenceId tokenFetch (.resp s t)).resp.code
        = STATUS_CODES.UNPROCESSABLE_ENTITY ∧
    (MtnMomo.collect st req referenceId tokenFetch (.resp s t)).resp.data.get "status"
        = some (.str TRANS_STATUS.PENDING) ∧
    (MtnMomo.collect st req referenceId tokenFetch (.resp s t)).resp.data.get "message"
        = some (.str "Transaction Initiated") := by
  have hfound : ∀ r : TransRecord, r.reference = req.gatewayRef →
      findOneByRef (st ++ [r]) req.gatewayRef = some r :=
    fun r hr => findOneByRef_append_single hfresh hr
  refine ⟨?_, ?_, ?_⟩ <;>
    simp [MtnMomo.collect, hm, ha, htok, hs, hfound, initRecord,
      JsVal.obj, JsVal.get, createResponse]

/-- C10 witness: a concrete rejected collect. -/
theorem c10_witness :
    (MtnMomo.collect [] ⟨"g1", "256700000000", some 1000, "abc-1", "", ""⟩ "x1"
      (.json (JsVal.obj [("access_token", .str "tok"), ("token_type", .str "Bearer"),
        ("expires_in", .num 3600)]))
      (.resp 500 "Internal Server Error")).resp.code = STATUS_CODES.UNPROCESSABLE_ENTITY ∧
    (MtnMomo.collect [] ⟨"g1", "256700000000", some 1000, "abc-1", "", ""⟩ "x1"
      (.json (JsVal.obj [("access_token", .str "tok"), ("token_type", .str "Bearer"),
        ("expires_in", .num 3600)]))
      (.resp 500 "Internal Server Error")).resp.data.get "status"
        = some (.str TRANS_STATUS.PENDING) ∧
    (MtnMomo.collect [] ⟨"g1", "256700000000", some 1000, "abc-1", "", ""⟩ "x1"
      (.json (JsVal.obj [("access_token", .str "tok"), ("token_type", .str "Bearer"),
        ("expires_in", .num 3600)]))
      (.resp 500 "Internal Server Error")).resp.data.get "message"
        = some (.str "Transaction Initiated") :=
  c10_failure_envelope_shows_preupdate_record [] ⟨"g1", "256700000000", some 1000, "abc-1", "", ""⟩
    "x1" (.json (JsVal.obj [("access_token", .str "tok"), ("token_type", .str "Bearer"),
      ("expires_in", .num 3600)])) 500 "Internal Server Error"
    rfl (by decide) (by decide) (by decide) (by decide)

/-- C6 counterexample: when the upstream rejects with an empty status text
(HTTP 500, statusText empty), the persisted message is the fallback
"Transaction Request Failed.", not the upstream status text (empty here),
so the claimed persisted-message-equals-status-text fails. -/
theorem c6_counterexample :
    ((findOneByRef (MtnMomo.collect [] ⟨"g1", "256700000000", some 1000, "abc-1", "", ""⟩
        "x1" (.json (JsVal.obj [("access_token", .str "tok"), ("token_type", .str "Bearer"),
          ("expires_in", .num 3600)])) (.resp 500 "")).ledger "g1").map
        (fun f => f.message)) = some "Transaction Request Failed." ∧
    ((findOneByRef (MtnMomo.collect [] ⟨"g1", "256700000000", some 1000, "abc-1", "", ""⟩
        "x1" (.json (JsVal.obj [("access_token", .str "tok"), ("token_type", .str "Bearer"),
          ("expires_in", .num 3600)])) (.resp 500 "")).ledger "g1").map
        (fun f => f.message)) ≠ some "" := by
  constructor
  · rfl
  · decide

/-- C6 (amended): upstream HTTP 200/202 on collect persists COMPLETED with
completedBy REQUEST and answers a success envelope (code 200); any other
HTTP status persists FAILED with completedBy REQUEST and a message equal to
the upstream status text when that text is non-empty, and the fallback
"Transaction Request Failed." when it is empty. -/
theorem c6_collect_persists_outcome
    (st : List TransRecord) (req : MomoReq) (referenceId : String)
    (tokenFetch : FetchOutcome) (s : Nat) (t : String)
    (hfresh : findOneByRef st req.gatewayRef = none)
    (hm : req.msisdn ≠ "") (ha : amountTruthy req.amount = true)
    (htok : (getAccessToken tokenFetch).code = STATUS_CODES.OK) :
    ((s = STATUS_CODES.OK ∨ s = STATUS_CODES.ACCEPTED) →
      ∃ f, findOneByRef (MtnMomo.collect st req referenceId tokenFetch
            (.resp s t)).ledger req.gatewayRef = some f ∧
        f.status = TRANS_STATUS.COMPLETED ∧ f.completed_by = some "REQUEST" ∧
        (MtnMomo.collect st req referenceId tokenFetch (.resp s t)).resp.code
          = STATUS_CODES.OK ∧
        (MtnMomo.collect st req referenceId tokenFetch (.resp s t)).resp.success
          = true) ∧
    (¬ (s = STATUS_CODES.OK ∨ s = STATUS_CODES.ACCEPTED) →
      ∃ f, findOneByRef (MtnMomo.collect st req referenceId tokenFetch
            (.resp s t)).ledger req.gatewayRef = some f ∧
        f.status = TRANS_STATUS.FAILED ∧ f.completed_by = some "REQUEST" ∧
        f.message = (if t = "" then "Transaction Request Failed." else t)) := by
  have hfound : ∀ r : TransRecord, r.reference = req.gatewayRef →
      findOneByRef (st ++ [r]) req.gatewayRef = some r :=
    fun r hr => findOneByRef_append_single hfresh hr
  constructor
  · intro h2
    simp only [MtnMomo.collect]
    rw [if_neg hm, if_neg (show ¬ (amountTruthy req.amount = false) from by simp [ha]),
      if_pos htok, if_pos h2]
    exact ⟨_, ledger_after_update_ref st _ req.gatewayRef _ hfresh rfl rfl,
      rfl, rfl, rfl, rfl⟩
  · intro h2
    simp only [MtnMomo.collect]
    rw [if_neg hm, if_neg (show ¬ (amountTruthy req.amount = false) from by simp [ha]),
      if_pos htok, if_neg h2,
      hfound (initRecord req referenceId TRANS_TYPES.COLLECTION (req.amount.getD 0)) rfl]
    simp only [Option.getD_some]
    exact ⟨_, ledger_after_update_eq st _ req.gatewayRef _ hfresh rfl rfl,
      rfl, rfl, rfl⟩

/-- C6 witness: a concrete accepted collect and a concrete rejected collect. -/
theorem c6_witness :
    (∃ f, findOneByRef (MtnMomo.collect [] ⟨"g1", "256700000000", some 1000, "abc-1", "", ""⟩
          "x1" (.json (JsVal.obj [("access_token", .str "tok"), ("token_type", .str "Bearer"),
            ("expires_in", .num 3600)])) (.resp 202 "Accepted")).ledger "g1" = some f ∧
      f.status = TRANS_STATUS.COMPLETED ∧ f.completed_by = some "REQUEST" ∧
      (MtnMomo.collect [] ⟨"g1", "256700000000", some 1000, "abc-1", "", ""⟩
          "x1" (.json (JsVal.obj [("access_token", .str "tok"), ("token_type", .str "Bearer"),
            ("expires_in", .num 3600)])) (.resp 202 "Accepted")).resp.code
        = STATUS_CODES.OK ∧
      (MtnMomo.collect [] ⟨"g1", "256700000000", some 1000, "abc-1", "", ""⟩
          "x1" (.json (JsVal.obj [("access_token", .str "tok"), ("token_type", .str "Bearer"),
            ("expires_in", .num 3600)])) (.resp 202 "Accepted")).resp.success = true) :=
  (c6_collect_persists_outcome [] ⟨"g1", "256700000000", some 1000, "abc-1", "", ""⟩
    "x1" (.json (JsVal.obj [("access_token", .str "tok"), ("token_type", .str "Bearer"),
      ("expires_in", .num 3600)])) 202 "Accepted"
    rfl (by decide) (by decide) (by decide)).1 (Or.inr rfl)

/-- C2 counterexample: a poll-path reconciliation whose upstream still
reports PENDING leaves the record PENDING yet stamps
completed_by = TRANS_CHECK, so completedBy is non-null on a non-terminal
record. -/
theorem c2_counterexample :
    ((findOneByRef (MtnMomo.checkTransactionStatus
        [{ reference := "t1", py_ref := "p1", msisdn := "m", amount := 100,
           status := "PENDING", transType := "collection", x_reference_id := "x1",
           provider_transaction_id := none, message := "Transaction Initiated",
           callback_received := false, completed_by := none, meta := JsVal.obj [] }]
        ⟨"g2", "p1", "t1"⟩
        (.json (JsVal.obj [("access_token", .str "tok"), ("token_type", .str "Bearer"),
          ("expires_in", .num 3600)]))
        (.reply true "OK" (JsVal.obj [("status", .str "PENDING")]))).ledger "t1").map
      (fun f => (f.status, f.completed_by)))
      = some (TRANS_STATUS.PENDING, some "TRANS_CHECK") ∧
    (some "TRANS_CHECK" : Option String) ≠ none := by
  constructor
  · rfl
  · decide

/-- C2 (amended): records written by collect and transfer satisfy the
discipline — the inserted record is PENDING with null completedBy, and the
final record has completedBy non-null exactly when its status is terminal
(COMPLETED or FAILED) — but the poll-path reconciliation stamps
completedBy = TRANS_CHECK on every status-check write, including writes
that leave the transaction PENDING. -/
theorem c2_completed_by_discipline :
    (∀ (req : MomoReq) (referenceId transType : String) (a : Int),
      (initRecord req referenceId transType a).status = TRANS_STATUS.PENDING ∧
      (initRecord req referenceId transType a).completed_by = none) ∧
    (∀ (st : List TransRecord) (req : MomoReq) (referenceId : String)
        (tokenFetch : FetchOutcome) (initiate : HttpOutcome),
      findOneByRef st req.gatewayRef = none → req.msisdn ≠ "" →
      amountTruthy req.amount = true →
      (getAccessToken tokenFetch).code = STATUS_CODES.OK →
      ∃ f, findOneByRef (MtnMomo.collect st req referenceId tokenFetch
            initiate).ledger req.gatewayRef = some f ∧
        (f.completed_by ≠ none ↔
          (f.status = TRANS_STATUS.COMPLETED ∨ f.status = TRANS_STATUS.FAILED))) ∧
    (∀ (st : List TransRecord) (req : MomoReq) (referenceId : String)
        (tokenFetch : FetchOutcome) (initiate : HttpOutcome),
      findOneByRef st req.gatewayRef = none → req.msisdn ≠ "" →
      amountTruthy req.amount = true →
      (getAccessToken tokenFetch).code = STATUS_CODES.OK →
      ∃ f, findOneByRef (MtnMomo.transfer st req referenceId tokenFetch
            initiate).ledger req.gatewayRef = some f ∧
        (f.completed_by ≠ none ↔
          (f.status = TRANS_STATUS.COMPLETED ∨ f.status = TRANS_STATUS.FAILED))) ∧
    (∀ (st : List TransRecord) (req : CheckReq) (tokenFetch : FetchOutcome)
        (txt : String) (body : JsVal) (n : TransRecord) (tv : String),
      req.id ≠ "" → findOneByRef st req.id = some n →
      n.status = TRANS_STATUS.PENDING →
      (getAccessToken tokenFetch).code = STATUS_CODES.OK →
      body.get "status" = some (.str tv) →
      body.get "financialTransactionId" = none →
      containsSub (strLower tv) "cancelled" = false →
      (containsSub (strLower tv) "pending" || containsSub (strLower tv) "progress") = true →
      ∃ f, findOneByRef (MtnMomo.checkTransactionStatus st req tokenFetch
            (.reply true txt body)).ledger req.id = some f ∧
        f.status = TRANS_STATUS.PENDING ∧ f.completed_by = some "TRANS_CHECK") := by
  refine ⟨fun req referenceId transType a => ⟨rfl, rfl⟩, ?_, ?_, ?_⟩
  · intro st req referenceId tokenFetch initiate hfresh hm ha htok
    have hfound : ∀ r : TransRecord, r.reference = req.gatewayRef →
        findOneByRef (st ++ [r]) req.gatewayRef = some r :=
      fun r hr => findOneByRef_append_single hfresh hr
    cases initiate with
    | resp s t =>
        by_cases h2 : s = STATUS_CODES.OK ∨ s = STATUS_CODES.ACCEPTED
        · simp only [MtnMomo.collect]
          rw [if_neg hm, if_neg (show ¬ (amountTruthy req.amount = false) from by simp [ha]),
            if_pos htok, if_pos h2]
          exact ⟨_, ledger_after_update_ref st _ req.gatewayRef _ hfresh rfl rfl, by simp [initRecord, TRANS_STATUS.COMPLETED, TRANS_STATUS.FAILED, TRANS_STATUS.PENDING]⟩
        · simp only [MtnMomo.collect]
          rw [if_neg hm, if_neg (show ¬ (amountTruthy req.amount = false) from by simp [ha]),
            if_pos htok, if_neg h2,
            hfound (initRecord req referenceId TRANS_TYPES.COLLECTION (req.amount.getD 0)) rfl]
          simp only [Option.getD_some]
          exact ⟨_, ledger_after_update_eq st _ req.gatewayRef _ hfresh rfl rfl, by simp [initRecord, TRANS_STATUS.COMPLETED, TRANS_STATUS.FAILED, TRANS_STATUS.PENDING]⟩
    | err m =>
        simp only [MtnMomo.collect]
        rw [if_neg hm, if_neg (show ¬ (amountTruthy req.amount = false) from by simp [ha]),
          if_pos htok]
        exact ⟨_, hfound _ rfl, by simp [initRecord, TRANS_STATUS.COMPLETED, TRANS_STATUS.FAILED, TRANS_STATUS.PENDING]⟩
  · intro st req referenceId tokenFetch initiate hfresh hm ha htok
    have hfound : ∀ r : TransRecord, r.reference = req.gatewayRef →
        findOneByRef (st ++ [r]) req.gatewayRef = some r :=
      fun r hr => findOneByRef_append_single hfresh hr
    cases initiate with
    | resp s t =>
        by_cases h2 : s = STATUS_CODES.OK ∨ s = STATUS_CODES.ACCEPTED
        · simp only [MtnMomo.transfer]
          rw [if_neg hm, if_neg (show ¬ (amountTruthy req.amount = false) from by simp [ha]),
            if_pos htok, if_pos h2]
          exact ⟨_, ledger_after_update_ref st _ req.gatewayRef _ hfresh rfl rfl, by simp [initRecord, TRANS_STATUS.COMPLETED, TRANS_STATUS.FAILED, TRANS_STATUS.PENDING]⟩
        · simp only [MtnMomo.transfer]
          rw [if_neg hm, if_neg (show ¬ (amountTruthy req.amount = false) from by simp [ha]),
            if_pos htok, if_neg h2,
            hfound (initRecord req referenceId TRANS_TYPES.PAYOUT (req.amount.getD 0)) rfl]
          simp only [Option.getD_some]
          exact ⟨_, ledger_after_update_eq st _ req.gatewayRef _ hfresh rfl rfl, by simp [initRecord, TRANS_STATUS.COMPLETED, TRANS_STATUS.FAILED, TRANS_STATUS.PENDING]⟩
    | err m =>
        simp only [MtnMomo.transfer]
        rw [if_neg hm, if_neg (show ¬ (amountTruthy req.amount = false) from by simp [ha]),
          if_pos htok]
        exact ⟨_, hfound _ rfl, by simp [initRecord, TRANS_STATUS.COMPLETED, TRANS_STATUS.FAILED, TRANS_STATUS.PENDING]⟩
  · intro st req tokenFetch txt body n tv hid h hpend htok hstat hfin hcanc hpp
    have hconf : MtnMomo.confirmTransactionStatus tokenFetch (.reply true txt body)
        = ([Event.tokenCall, Event.statusCall],
           createResponse STATUS_CODES.UNPROCESSABLE_ENTITY body
             "Transaction Check Incomplete. Missing Response Data") := by
      simp only [MtnMomo.confirmTransactionStatus]
      rw [if_pos htok]
      rw [hstat, hfin]
      rfl
    simp only [MtnMomo.checkTransactionStatus]
    rw [if_neg hid, h]
    dsimp only
    rw [hpend]
    rw [if_neg (by decide), if_neg (by decide)]
    rw [hconf]
    dsimp only [createResponse]
    rw [if_neg (by decide), if_pos (truthy_of_get_some hstat), hstat]
    dsimp only
    rw [if_neg (by simp [hcanc]), if_pos hpp]
    exact ⟨_, find?_updateFirst_self h _ rfl, rfl, rfl⟩

/-- C2 witness: concrete instantiations of all four parts. -/
theorem c2_witness :
    ((initRecord ⟨"g1", "256700000000", some 1000, "abc-1", "", ""⟩ "x1"
        TRANS_TYPES.COLLECTION 1000).status = TRANS_STATUS.PENDING ∧
      (initRecord ⟨"g1", "256700000000", some 1000, "abc-1", "", ""⟩ "x1"
        TRANS_TYPES.COLLECTION 1000).completed_by = none) ∧
    (∃ f, findOneByRef (MtnMomo.collect [] ⟨"g1", "256700000000", some 1000, "abc-1", "", ""⟩
          "x1" (.json (JsVal.obj [("access_token", .str "tok"), ("token_type", .str "Bearer"),
            ("expires_in", .num 3600)])) (.resp 202 "Accepted")).ledger "g1" = some f ∧
      (f.completed_by ≠ none ↔
        (f.status = TRANS_STATUS.COMPLETED ∨ f.status = TRANS_STATUS.FAILED))) ∧
    (∃ f, findOneByRef (MtnMomo.transfer [] ⟨"g1", "256700000000", some 1000, "abc-1", "", ""⟩
          "x1" (.json (JsVal.obj [("access_token", .str "tok"), ("token_type", .str "Bearer"),
            ("expires_in", .num 3600)])) (.resp 202 "Accepted")).ledger "g1" = some f ∧
      (f.completed_by ≠ none ↔
        (f.status = TRANS_STATUS.COMPLETED ∨ f.status = TRANS_STATUS.FAILED))) ∧
    (∃ f, findOneByRef (MtnMomo.checkTransactionStatus
        [{ reference := "t1", py_ref := "p1", msisdn := "m", amount := 100,
           status := "PENDING", transType := "collection", x_reference_id := "x1",
           provider_transaction_id := none, message := "Transaction Initiated",
           callback_received := false, completed_by := none, meta := JsVal.obj [] }]
        ⟨"g2", "p1", "t1"⟩
        (.json (JsVal.obj [("access_token", .str "tok"), ("token_type", .str "Bearer"),
          ("expires_in", .num 3600)]))
        (.reply true "OK" (JsVal.obj [("status", .str "PENDING")]))).ledger "t1" = some f ∧
      f.status = TRANS_STATUS.PENDING ∧ f.completed_by = some "TRANS_CHECK") := by
  refine ⟨c2_completed_by_discipline.1 _ _ _ _, ?_, ?_, ?_⟩
  · exact c2_completed_by_discipline.2.1 [] ⟨"g1", "256700000000", some 1000, "abc-1", "", ""⟩
      "x1" (.json (JsVal.obj [("access_token", .str "tok"), ("token_type", .str "Bearer"),
        ("expires_in", .num 3600)])) (.resp 202 "Accepted")
      rfl (by decide) (by decide) (by decide)
  · exact c2_completed_by_discipline.2.2.1 [] ⟨"g1", "256700000000", some 1000, "abc-1", "", ""⟩
      "x1" (.json (JsVal.obj [("access_token", .str "tok"), ("token_type", .str "Bearer"),
        ("expires_in", .num 3600)])) (.resp 202 "Accepted")
      rfl (by decide) (by decide) (by decide)
  · exact c2_completed_by_discipline.2.2.2
      [{ reference := "t1", py_ref := "p1", msisdn := "m", amount := 100,
         status := "PENDING", transType := "collection", x_reference_id := "x1",
         provider_transaction_id := none, message := "Transaction Initiated",
         callback_received := false, completed_by := none, meta := JsVal.obj [] }]
      ⟨"g2", "p1", "t1"⟩
      (.json (JsVal.obj [("access_token", .str "tok"), ("token_type", .str "Bearer"),
        ("expires_in", .num 3600)]))
      "OK" (JsVal.obj [("status", .str "PENDING")]) _ "PENDING"
      (by decide) rfl rfl (by decide) rfl rfl (by decide) (by decide)

/-- C1 counterexample: a record already in the terminal state COMPLETED is
not short-circuited — the poll issues the upstream status query (token and
status calls) and rewrites the record. -/
theorem c1_counterexample :
    (MtnMomo.checkTransactionStatus
      [{ reference := "t1", py_ref := "p1", msisdn := "m", amount := 100,
         status := "COMPLETED", transType := "collection", x_reference_id := "x1",
         provider_transaction_id := none, message := "202-Accepted",
         callback_received := false, completed_by := some "REQUEST", meta := JsVal.obj [] }]
      ⟨"g2", "p1", "t1"⟩
      (.json (JsVal.obj [("access_token", .str "tok"), ("token_type", .str "Bearer"),
        ("expires_in", .num 3600)]))
      (.reply true "OK" (JsVal.obj [("status", .str "SUCCESSFUL"),
        ("financialTransactionId", .str "FT1")]))).events
      = [Event.tokenCall, Event.statusCall] ∧
    ((findOneByRef (MtnMomo.checkTransactionStatus
      [{ reference := "t1", py_ref := "p1", msisdn := "m", amount := 100,
         status := "COMPLETED", transType := "collection", x_reference_id := "x1",
         provider_transaction_id := none, message := "202-Accepted",
         callback_received := false, completed_by := some "REQUEST", meta := JsVal.obj [] }]
      ⟨"g2", "p1", "t1"⟩
      (.json (JsVal.obj [("access_token", .str "tok"), ("token_type", .str "Bearer"),
        ("expires_in", .num 3600)]))
      (.reply true "OK" (JsVal.obj [("status", .str "SUCCESSFUL"),
        ("financialTransactionId", .str "FT1")]))).ledger "t1").map (fun f => f.status))
      = some "SUCCESSFUL" ∧
    ("SUCCESSFUL" : String) ≠ "COMPLETED" := by
  refine ⟨rfl, rfl, by decide⟩

/-- C1 (amended): a record whose cached status is the literal SUCCESSFUL,
or FAILED, or CANCELLED is answered from cache — no outbound call, ledger
untouched, cached status returned; but a record in the terminal state
COMPLETED is treated as non-terminal: with a valid token the engine issues
the upstream status query. -/
theorem c1_terminal_cache_discipline
    (st : List TransRecord) (req : CheckReq) (tokenFetch : FetchOutcome)
    (statusFetch : ConfirmFetch) (n : TransRecord)
    (hid : req.id ≠ "") (h : findOneByRef st req.id = some n) :
    ((n.status = "SUCCESSFUL" ∨ n.status = TRANS_STATUS.FAILED ∨
        n.status = TRANS_STATUS.CANCELLED) →
      (MtnMomo.checkTransactionStatus st req tokenFetch statusFetch).events = [] ∧
      (MtnMomo.checkTransactionStatus st req tokenFetch statusFetch).ledger = st ∧
      ∃ r, (MtnMomo.checkTransactionStatus st req tokenFetch statusFetch).out
          = CheckOut.resp r ∧
        r.data.get "status" = some (.str n.status)) ∧
    (n.status = TRANS_STATUS.COMPLETED →
      (getAccessToken tokenFetch).code = STATUS_CODES.OK →
      Event.statusCall ∈
        (MtnMomo.checkTransactionStatus st req tokenFetch statusFetch).events) := by
  constructor
  · intro hterm
    rcases hterm with hs | hs | hs
    · simp only [MtnMomo.checkTransactionStatus]
      rw [if_neg hid, h]
      dsimp only
      rw [if_pos hs]
      exact ⟨rfl, rfl, _, rfl, rfl⟩
    · simp only [MtnMomo.checkTransactionStatus]
      rw [if_neg hid, h]
      dsimp only
      rw [hs]
      rw [if_neg (by decide), if_pos (by decide)]
      exact ⟨rfl, rfl, _, rfl, rfl⟩
    · simp only [MtnMomo.checkTransactionStatus]
      rw [if_neg hid, h]
      dsimp only
      rw [hs]
      rw [if_neg (by decide), if_pos (by decide)]
      exact ⟨rfl, rfl, _, rfl, rfl⟩
  · intro hcomp htok2
    have hmem : Event.statusCall ∈
        (MtnMomo.confirmTransactionStatus tokenFetch statusFetch).1 := by
      simp only [MtnMomo.confirmTransactionStatus]
      rw [if_pos htok2]
      cases statusFetch <;> simp
    simp only [MtnMomo.checkTransactionStatus]
    rw [if_neg hid, h]
    dsimp only
    rw [hcomp]
    rw [if_neg (by decide), if_neg (by decide)]
    repeat' split
    all_goals exact hmem

/-- C1 witness: a cached FAILED record is answered with no calls. -/
theorem c1_witness :
    (MtnMomo.checkTransactionStatus
      [{ reference := "t1", py_ref := "p1", msisdn := "m", amount := 100,
         status := "FAILED", transType := "collection", x_reference_id := "x1",
         provider_transaction_id := none, message := "failed upstream",
         callback_received := false, completed_by := some "REQUEST", meta := JsVal.obj [] }]
      ⟨"g2", "p1", "t1"⟩ (.json (JsVal.obj [])) .fail).events = [] ∧
    (MtnMomo.checkTransactionStatus
      [{ reference := "t1", py_ref := "p1", msisdn := "m", amount := 100,
         status := "FAILED", transType := "collection", x_reference_id := "x1",
         provider_transaction_id := none, message := "failed upstream",
         callback_received := false, completed_by := some "REQUEST", meta := JsVal.obj [] }]
      ⟨"g2", "p1", "t1"⟩ (.json (JsVal.obj [])) .fail).ledger =
      [{ reference := "t1", py_ref := "p1", msisdn := "m", amount := 100,
         status := "FAILED", transType := "collection", x_reference_id := "x1",
         provider_transaction_id := none, message := "failed upstream",
         callback_received := false, completed_by := some "REQUEST", meta := JsVal.obj [] }] ∧
    ∃ r, (MtnMomo.checkTransactionStatus
      [{ reference := "t1", py_ref := "p1", msisdn := "m", amount := 100,
         status := "FAILED", transType := "collection", x_reference_id := "x1",
         provider_transaction_id := none, message := "failed upstream",
         callback_received := false, completed_by := some "REQUEST", meta := JsVal.obj [] }]
      ⟨"g2", "p1", "t1"⟩ (.json (JsVal.obj [])) .fail).out = CheckOut.resp r ∧
      r.data.get "status" = some (.str "FAILED") :=
  (c1_terminal_cache_discipline
    [{ reference := "t1", py_ref := "p1", msisdn := "m", amount := 100,
       status := "FAILED", transType := "collection", x_reference_id := "x1",
       provider_transaction_id := none, message := "failed upstream",
       callback_received := false, completed_by := some "REQUEST", meta := JsVal.obj [] }]
    ⟨"g2", "p1", "t1"⟩ (.json (JsVal.obj [])) .fail _
    (by decide) rfl).1 (Or.inr (Or.inl rfl))

/-- C4: on a PENDING record whose upstream status query fails at the
transport level, the engine does not return a 500 verification-failure
envelope: reading the status property of the empty error payload raises a
TypeError that escapes the operation; the ledger is left unchanged. -/
theorem c4_transport_failure_raises :
    (MtnMomo.checkTransactionStatus
      [{ reference := "t1", py_ref := "p1", msisdn := "m", amount := 100,
         status := "PENDING", transType := "collection", x_reference_id := "x1",
         provider_transaction_id := none, message := "Transaction Initiated",
         callback_received := false, completed_by := none, meta := JsVal.obj [] }]
      ⟨"g1", "p1", "t1"⟩
      (.json (JsVal.obj [("access_token", .str "tok"), ("token_type", .str "Bearer"),
        ("expires_in", .num 3600)]))
      .fail).out = CheckOut.thrown "TypeError" ∧
    (MtnMomo.checkTransactionStatus
      [{ reference := "t1", py_ref := "p1", msisdn := "m", amount := 100,
         status := "PENDING", transType := "collection", x_reference_id := "x1",
         provider_transaction_id := none, message := "Transaction Initiated",
         callback_received := false, completed_by := none, meta := JsVal.obj [] }]
      ⟨"g1", "p1", "t1"⟩
      (.json (JsVal.obj [("access_token", .str "tok"), ("token_type", .str "Bearer"),
        ("expires_in", .num 3600)]))
      .fail).ledger =
      [{ reference := "t1", py_ref := "p1", msisdn := "m", amount := 100,
         status := "PENDING", transType := "collection", x_reference_id := "x1",
         provider_transaction_id := none, message := "Transaction Initiated",
         callback_received := false, completed_by := none, meta := JsVal.obj [] }] :=
  ⟨rfl, rfl⟩

/-- C5: on a PENDING record that reaches the upstream status query, an
upstream SUCCESSFUL status accompanied by a financial transaction id is
persisted as that success status with completedBy TRANS_CHECK and answered
200; otherwise the upstream free-text status is classified
case-insensitively by substring: containing cancelled persists CANCELLED
and answers 500, containing pending or progress keeps PENDING and answers
504, and any other value is persisted verbatim, echoed as the envelope
status, and surfaced with the upstream-check result code
(UNPROCESSABLE_ENTITY). -/
theorem c5_pending_status_mapping
    (st : List TransRecord) (req : CheckReq) (tokenFetch : FetchOutcome)
    (txt : String) (body : JsVal) (n : TransRecord) (sv : String)
    (hid : req.id ≠ "") (h : findOneByRef st req.id = some n)
    (hpend : n.status = TRANS_STATUS.PENDING)
    (htok : (getAccessToken tokenFetch).code = STATUS_CODES.OK)
    (hstat : body.get "status" = some (.str sv)) :
    (∀ fv, body.get "financialTransactionId" = some fv →
      strUpper sv = "SUCCESSFUL" →
      ∃ f, findOneByRef (MtnMomo.checkTransactionStatus st req tokenFetch
            (.reply true txt body)).ledger req.id = some f ∧
        f.status = sv ∧ f.completed_by = some "TRANS_CHECK" ∧
        ∃ r, (MtnMomo.checkTransactionStatus st req tokenFetch
            (.reply true txt body)).out = CheckOut.resp r ∧
          r.code = STATUS_CODES.OK) ∧
    ((body.get "financialTransactionId" = none ∨ strUpper sv ≠ "SUCCESSFUL") →
      (containsSub (strLower sv) "cancelled" = true →
        ∃ f, findOneByRef (MtnMomo.checkTransactionStatus st req tokenFetch
              (.reply true txt body)).ledger req.id = some f ∧
          f.status = TRANS_STATUS.CANCELLED ∧ f.completed_by = some "TRANS_CHECK" ∧
          ∃ r, (MtnMomo.checkTransactionStatus st req tokenFetch
              (.reply true txt body)).out = CheckOut.resp r ∧
            r.code = STATUS_CODES.INTERNAL_SERVER_ERROR) ∧
      (containsSub (strLower sv) "cancelled" = false →
        (containsSub (strLower sv) "pending" ||
          containsSub (strLower sv) "progress") = true →
        ∃ f, findOneByRef (MtnMomo.checkTransactionStatus st req tokenFetch
              (.reply true txt body)).ledger req.id = some f ∧
          f.status = TRANS_STATUS.PENDING ∧ f.completed_by = some "TRANS_CHECK" ∧
          ∃ r, (MtnMomo.checkTransactionStatus st req tokenFetch
              (.reply true txt body)).out = CheckOut.resp r ∧
            r.code = STATUS_CODES.HTTP_GATEWAY_TIMEOUT) ∧
      (containsSub (strLower sv) "cancelled" = false →
        (containsSub (strLower sv) "pending" ||
          containsSub (strLower sv) "progress") = false →
        ∃ f, findOneByRef (MtnMomo.checkTransactionStatus st req tokenFetch
              (.reply true txt body)).ledger req.id = some f ∧
          f.status = sv ∧ f.completed_by = some "TRANS_CHECK" ∧
          ∃ r, (MtnMomo.checkTransactionStatus st req tokenFetch
              (.reply true txt body)).out = CheckOut.resp r ∧
            r.code = STATUS_CODES.UNPROCESSABLE_ENTITY ∧
            r.data.get "status" = some (.str sv))) := by
  constructor
  · intro fv hfin hsucc
    have hconf : MtnMomo.confirmTransactionStatus tokenFetch (.reply true txt body)
        = ([Event.tokenCall, Event.statusCall],
           createResponse STATUS_CODES.OK body "") := by
      simp only [MtnMomo.confirmTransactionStatus]
      rw [if_pos htok]
      rw [hstat, hfin]
      dsimp only
      rw [if_pos hsucc]
      rfl
    simp only [MtnMomo.checkTransactionStatus]
    rw [if_neg hid, h]
    dsimp only
    rw [hpend]
    rw [if_neg (by decide), if_neg (by decide)]
    rw [hconf]
    dsimp only [createResponse]
    rw [if_pos rfl, hstat]
    dsimp only
    exact ⟨_, find?_updateFirst_self h _ rfl, rfl, rfl, _, rfl, rfl⟩
  · intro hor
    have hconf : MtnMomo.confirmTransactionStatus tokenFetch (.reply true txt body)
        = ([Event.tokenCall, Event.statusCall],
           createResponse STATUS_CODES.UNPROCESSABLE_ENTITY body
             "Transaction Check Incomplete. Missing Response Data") := by
      simp only [MtnMomo.confirmTransactionStatus]
      rw [if_pos htok]
      cases hfin2 : body.get "financialTransactionId" with
      | none =>
          rw [hstat]
          rfl
      | some fv =>
          have hnsucc : strUpper sv ≠ "SUCCESSFUL" := by
            rcases hor with hfin | hnsucc
            · rw [hfin] at hfin2; exact absurd hfin2 (by simp)
            · exact hnsucc
          rw [hstat]
          dsimp only
          rw [if_neg hnsucc]
          rfl
    refine ⟨?_, ?_, ?_⟩
    · intro hcanc
      simp only [MtnMomo.checkTransactionStatus]
      rw [if_neg hid, h]
      dsimp only
      rw [hpend]
      rw [if_neg (by decide), if_neg (by decide)]
      rw [hconf]
      dsimp only [createResponse]
      rw [if_neg (by decide), if_pos (truthy_of_get_some hstat), hstat]
      dsimp only
      rw [if_pos hcanc]
      exact ⟨_, find?_updateFirst_self h _ rfl, rfl, rfl, _, rfl, rfl⟩
    · intro hcanc hpp
      simp only [MtnMomo.checkTransactionStatus]
      rw [if_neg hid, h]
      dsimp only
      rw [hpend]
      rw [if_neg (by decide), if_neg (by decide)]
      rw [hconf]
      dsimp only [createResponse]
      rw [if_neg (by decide), if_pos (truthy_of_get_some hstat), hstat]
      dsimp only
      rw [if_neg (by simp [hcanc]), if_pos hpp]
      exact ⟨_, find?_updateFirst_self h _ rfl, rfl, rfl, _, rfl, rfl⟩
    · intro hcanc hpp
      simp only [MtnMomo.checkTransactionStatus]
      rw [if_neg hid, h]
      dsimp only
      rw [hpend]
      rw [if_neg (by decide), if_neg (by decide)]
      rw [hconf]
      dsimp only [createResponse]
      rw [if_neg (by decide), if_pos (truthy_of_get_some hstat), hstat]
      dsimp only
      rw [if_neg (by simp [hcanc]), if_neg (by simp [hpp])]
      exact ⟨_, find?_updateFirst_self h _ rfl, rfl, rfl, _, rfl, rfl, rfl⟩

/-- C5 witness: concrete runs hitting the success case and the cancelled
classification. -/
theorem c5_witness :
    (∃ f, findOneByRef (MtnMomo.checkTransactionStatus
        [{ reference := "t1", py_ref := "p1", msisdn := "m", amount := 100,
           status := "PENDING", transType := "collection", x_reference_id := "x1",
           provider_transaction_id := none, message := "Transaction Initiated",
           callback_received := false, completed_by := none, meta := JsVal.obj [] }]
        ⟨"g2", "p1", "t1"⟩
        (.json (JsVal.obj [("access_token", .str "tok"), ("token_type", .str "Bearer"),
          ("expires_in", .num 3600)]))
        (.reply true "OK" (JsVal.obj [("status", .str "SUCCESSFUL"),
          ("financialTransactionId", .str "FT1")]))).ledger "t1" = some f ∧
      f.status = "SUCCESSFUL" ∧ f.completed_by = some "TRANS_CHECK" ∧
      ∃ r, (MtnMomo.checkTransactionStatus
        [{ reference := "t1", py_ref := "p1", msisdn := "m", amount := 100,
           status := "PENDING", transType := "collection", x_reference_id := "x1",
           provider_transaction_id := none, message := "Transaction Initiated",
           callback_received := false, completed_by := none, meta := JsVal.obj [] }]
        ⟨"g2", "p1", "t1"⟩
        (.json (JsVal.obj [("access_token", .str "tok"), ("token_type", .str "Bearer"),
          ("expires_in", .num 3600)]))
        (.reply true "OK" (JsVal.obj [("status", .str "SUCCESSFUL"),
          ("financialTransactionId", .str "FT1")]))).out = CheckOut.resp r ∧
        r.code = STATUS_CODES.OK) ∧
    (∃ f, findOneByRef (MtnMomo.checkTransactionStatus
        [{ reference := "t1", py_ref := "p1", msisdn := "m", amount := 100,
           status := "PENDING", transType := "collection", x_reference_id := "x1",
           provider_transaction_id := none, message := "Transaction Initiated",
           callback_received := false, completed_by := none, meta := JsVal.obj [] }]
        ⟨"g2", "p1", "t1"⟩
        (.json (JsVal.obj [("access_token", .str "tok"), ("token_type", .str "Bearer"),
          ("expires_in", .num 3600)]))
        (.reply true "OK" (JsVal.obj [("status", .str "Request CANCELLED by payer")]))).ledger
        "t1" = some f ∧
      f.status = TRANS_STATUS.CANCELLED ∧ f.completed_by = some "TRANS_CHECK" ∧
      ∃ r, (MtnMomo.checkTransactionStatus
        [{ reference := "t1", py_ref := "p1", msisdn := "m", amount := 100,
           status := "PENDING", transType := "collection", x_reference_id := "x1",
           provider_transaction_id := none, message := "Transaction Initiated",
           callback_received := false, completed_by := none, meta := JsVal.obj [] }]
        ⟨"g2", "p1", "t1"⟩
        (.json (JsVal.obj [("access_token", .str "tok"), ("token_type", .str "Bearer"),
          ("expires_in", .num 3600)]))
        (.reply true "OK" (JsVal.obj [("status", .str "Request CANCELLED by payer")]))).out
          = CheckOut.resp r ∧
        r.code = STATUS_CODES.INTERNAL_SERVER_ERROR) := by
  constructor
  · exact (c5_pending_status_mapping
      [{ reference := "t1", py_ref := "p1", msisdn := "m", amount := 100,
         status := "PENDING", transType := "collection", x_reference_id := "x1",
         provider_transaction_id := none, message := "Transaction Initiated",
         callback_received := false, completed_by := none, meta := JsVal.obj [] }]
      ⟨"g2", "p1", "t1"⟩
      (.json (JsVal.obj [("access_token", .str "tok"), ("token_type", .str "Bearer"),
        ("expires_in", .num 3600)]))
      "OK" (JsVal.obj [("status", .str "SUCCESSFUL"),
        ("financialTransactionId", .str "FT1")]) _ "SUCCESSFUL"
      (by decide) rfl rfl (by decide) rfl).1 (.str "FT1") rfl (by decide)
  · exact ((c5_pending_status_mapping
      [{ reference := "t1", py_ref := "p1", msisdn := "m", amount := 100,
         status := "PENDING", transType := "collection", x_reference_id := "x1",
         provider_transaction_id := none, message := "Transaction Initiated",
         callback_received := false, completed_by := none, meta := JsVal.obj [] }]
      ⟨"g2", "p1", "t1"⟩
      (.json (JsVal.obj [("access_token", .str "tok"), ("token_type", .str "Bearer"),
        ("expires_in", .num 3600)]))
      "OK" (JsVal.obj [("status", .str "Request CANCELLED by payer")]) _
      "Request CANCELLED by payer"
      (by decide) rfl rfl (by decide) rfl).2 (Or.inl rfl)).1 (by decide)

theorem updateFirst_of_none {α : Type} {p : α → Bool} {f : α → α} {l : List α}
    (h : ∀ a ∈ l, p a = false) : updateFirst l p f = l := by
  induction l with
  | nil => rfl
  | cons a tl ih =>
      simp [updateFirst, h a (by simp), ih (fun x hx => h x (by simp [hx]))]

theorem updateFirst_forall2 {α : Type} (p : α → Bool) (patch : α → α) :
    ∀ l : List α,
      List.Forall₂ (fun o nr => nr = o ∨ nr = patch o) l (updateFirst l p patch) := by
  intro l
  induction l with
  | nil => exact List.Forall₂.nil
  | cons a tl ih =>
      by_cases hpa : p a = true
      · simp only [updateFirst, hpa, if_true]
        exact List.Forall₂.cons (Or.inr rfl)
          (List.forall₂_same.mpr (fun x _ => Or.inl rfl))
      · simp only [updateFirst, hpa, Bool.false_eq_true, if_false]
        exact List.Forall₂.cons (Or.inl rfl) ih

/-- C3 counterexample: a webhook push with success flag "successful" and a
matching record persists the status TRANS_STATUS.SUCCESSFUL, whose value is
the string SUCCESS — not COMPLETED as the claim states — and writes no
webhook-origin marker (only status and responseBody change). -/
theorem c3_counterexample :
    ((Card.updateLogByWebhook
        [{ gatewayRef := "g9", level := "INFO", message := none,
           requestBody_py_ref := some "p9", responseBody := none, status := none }]
        (JsVal.obj [("status", .str "successful"), ("txRef", .str "g9")])).1.map
      (fun r => r.status)) = [some TRANS_STATUS.SUCCESSFUL] ∧
    TRANS_STATUS.SUCCESSFUL = "SUCCESS" ∧
    ((Card.updateLogByWebhook
        [{ gatewayRef := "g9", level := "INFO", message := none,
           requestBody_py_ref := some "p9", responseBody := none, status := none }]
        (JsVal.obj [("status", .str "successful"), ("txRef", .str "g9")])).1.map
      (fun r => r.status)) ≠ [some "COMPLETED"] := by
  refine ⟨rfl, rfl, by decide⟩

/-- C3 (amended): the webhook path derives the status by string equality of
the payload success flag against the literal successful, persists
TRANS_STATUS.SUCCESSFUL (the string SUCCESS) or FAILED into the matching
log record changing only status and responseBody (no completedBy or
webhook-origin marker is written), leaves the log untouched when no record
matches the pushed reference, and acknowledges 200/OK in every case. -/
theorem c3_webhook_behavior (stLog : List LogRecord) (details : JsVal) :
    (webhookRoute stLog details).2 = STATUS_CODES.OK ∧
    List.Forall₂ (fun o nr => nr = o ∨ nr = { o with
        status := some (if details.get "status" = some (.str "successful")
          then TRANS_STATUS.SUCCESSFUL else TRANS_STATUS.FAILED),
        responseBody := some details })
      stLog (webhookRoute stLog details).1 ∧
    ((∀ r ∈ stLog, (details.get "txRef" == some (.str r.gatewayRef)) = false) →
      (webhookRoute stLog details).1 = stLog) := by
  refine ⟨rfl, ?_, ?_⟩
  · exact updateFirst_forall2 _ _ stLog
  · intro hnone
    exact updateFirst_of_none hnone

/-- C3 witness: a webhook push whose reference matches nothing still
acknowledges 200 and leaves the log unchanged. -/
theorem c3_witness :
    (webhookRoute
      [{ gatewayRef := "g9", level := "INFO", message := none,
         requestBody_py_ref := some "p9", responseBody := none, status := none }]
      (JsVal.obj [("status", .str "failed"), ("txRef", .str "nomatch")])).2
      = STATUS_CODES.OK ∧
    (webhookRoute
      [{ gatewayRef := "g9", level := "INFO", message := none,
         requestBody_py_ref := some "p9", responseBody := none, status := none }]
      (JsVal.obj [("status", .str "failed"), ("txRef", .str "nomatch")])).1
      = [{ gatewayRef := "g9", level := "INFO", message := none,
           requestBody_py_ref := some "p9", responseBody := none, status := none }] := by
  refine ⟨(c3_webhook_behavior
    [{ gatewayRef := "g9", level := "INFO", message := none,
       requestBody_py_ref := some "p9", responseBody := none, status := none }]
    (JsVal.obj [("status", .str "failed"), ("txRef", .str "nomatch")])).1,
    (c3_webhook_behavior
    [{ gatewayRef := "g9", level := "INFO", message := none,
       requestBody_py_ref := some "p9", responseBody := none, status := none }]
    (JsVal.obj [("status", .str "failed"), ("txRef", .str "nomatch")])).2.2
    (by decide)⟩

/-- C8: the admission gate applies its checks in order — missing external
reference, duplicate external reference (existence decided by count > 0),
missing provider header, unknown provider — each rejection answers 400 with
the audit-log insert preceding the response, no adapter is attached on a
rejected request, and on success the resolved provider is attached for the
downstream handler. -/
theorem c8_admission_gate (logDb : List LogRecord) (configuredProviders : List String)
    (req : GateReq) :
    (req.pyRef = "" →
      (validateRequest logDb configuredProviders req).1
        = [.audit ERROR_MESSAGES.MISSING_API_REF, .respondEv STATUS_CODES.BAD_REQUEST] ∧
      ∃ resp, (validateRequest logDb configuredProviders req).2 = .rejected resp ∧
        resp.code = STATUS_CODES.BAD_REQUEST) ∧
    (req.pyRef ≠ "" → 0 < countPyRef logDb req.pyRef →
      (validateRequest logDb configuredProviders req).1
        = [.audit ERROR_MESSAGES.NON_UNIQUE_TRANSACTION, .respondEv STATUS_CODES.BAD_REQUEST] ∧
      ∃ resp, (validateRequest logDb configuredProviders req).2 = .rejected resp ∧
        resp.code = STATUS_CODES.BAD_REQUEST) ∧
    (req.pyRef ≠ "" → countPyRef logDb req.pyRef = 0 → req.providerHeader = "" →
      (validateRequest logDb configuredProviders req).1
        = [.audit ERROR_MESSAGES.MISSING_PROVIDER_HEADER, .respondEv STATUS_CODES.BAD_REQUEST] ∧
      ∃ resp, (validateRequest logDb configuredProviders req).2 = .rejected resp ∧
        resp.code = STATUS_CODES.BAD_REQUEST) ∧
    (req.pyRef ≠ "" → countPyRef logDb req.pyRef = 0 → req.providerHeader ≠ "" →
      configuredProviders.contains req.providerHeader = false →
      (validateRequest logDb configuredProviders req).1
        = [.audit ERROR_MESSAGES.UNKNOWN_SERVICE_PROVIDER, .respondEv STATUS_CODES.BAD_REQUEST] ∧
      ∃ resp, (validateRequest logDb configuredProviders req).2 = .rejected resp ∧
        resp.code = STATUS_CODES.BAD_REQUEST) ∧
    (req.pyRef ≠ "" → countPyRef logDb req.pyRef = 0 → req.providerHeader ≠ "" →
      configuredProviders.contains req.providerHeader = true →
      validateRequest logDb configuredProviders req
        = ([.attach req.providerHeader, .nextEv], .passed req.providerHeader)) ∧
    (∀ resp, (validateRequest logDb configuredProviders req).2 = .rejected resp →
      ∀ prov, GEvent.attach prov ∉ (validateRequest logDb configuredProviders req).1) := by
  refine ⟨?_, ?_, ?_, ?_, ?_, ?_⟩
  · intro h1
    rw [validateRequest, if_pos h1]
    exact ⟨rfl, _, rfl, rfl⟩
  · intro h1 hdup
    rw [validateRequest, if_neg h1,
      if_pos (show transactionExists logDb req.pyRef = true from by
        simp [transactionExists, hdup])]
    exact ⟨rfl, _, rfl, rfl⟩
  · intro h1 hnod h3
    rw [validateRequest, if_neg h1,
      if_neg (show ¬ transactionExists logDb req.pyRef = true from by
        simp [transactionExists, hnod]),
      if_pos h3]
    exact ⟨rfl, _, rfl, rfl⟩
  · intro h1 hnod h3 h4
    rw [validateRequest, if_neg h1,
      if_neg (show ¬ transactionExists logDb req.pyRef = true from by
        simp [transactionExists, hnod]),
      if_neg h3, if_pos h4]
    exact ⟨rfl, _, rfl, rfl⟩
  · intro h1 hnod h3 h4
    rw [validateRequest, if_neg h1,
      if_neg (show ¬ transactionExists logDb req.pyRef = true from by
        simp [transactionExists, hnod]),
      if_neg h3, if_neg (show ¬ (configuredProviders.contains req.providerHeader) = false from
        by rw [h4]; simp)]
  · intro resp hrej prov
    by_cases h1 : req.pyRef = ""
    · rw [validateRequest, if_pos h1]
      simp
    · by_cases h2 : transactionExists logDb req.pyRef = true
      · rw [validateRequest, if_neg h1, if_pos h2]
        simp
      · by_cases h3 : req.providerHeader = ""
        · rw [validateRequest, if_neg h1, if_neg h2, if_pos h3]
          simp
        · by_cases h4 : (configuredProviders.contains req.providerHeader) = false
          · rw [validateRequest, if_neg h1, if_neg h2, if_neg h3, if_pos h4]
            simp
          · rw [validateRequest, if_neg h1, if_neg h2, if_neg h3, if_neg h4] at hrej
            simp at hrej

/-- C8 witness: concrete instantiations of the duplicate-reference
rejection and of a passing request. -/
theorem c8_witness :
    ((validateRequest
        [{ gatewayRef := "g0", level := "INFO", message := none,
           requestBody_py_ref := some "p9", responseBody := none, status := none }]
        ["mtn-momo"] ⟨"g1", "p9", "mtn-momo"⟩).1
      = [.audit ERROR_MESSAGES.NON_UNIQUE_TRANSACTION, .respondEv STATUS_CODES.BAD_REQUEST] ∧
      ∃ resp, (validateRequest
        [{ gatewayRef := "g0", level := "INFO", message := none,
           requestBody_py_ref := some "p9", responseBody := none, status := none }]
        ["mtn-momo"] ⟨"g1", "p9", "mtn-momo"⟩).2 = .rejected resp ∧
        resp.code = STATUS_CODES.BAD_REQUEST) ∧
    validateRequest [] ["mtn-momo"] ⟨"g1", "p1", "mtn-momo"⟩
      = ([.attach "mtn-momo", .nextEv], .passed "mtn-momo") := by
  constructor
  · exact (c8_admission_gate
      [{ gatewayRef := "g0", level := "INFO", message := none,
         requestBody_py_ref := some "p9", responseBody := none, status := none }]
      ["mtn-momo"] ⟨"g1", "p9", "mtn-momo"⟩).2.1 (by decide) (by decide)
  · exact (c8_admission_gate [] ["mtn-momo"] ⟨"g1", "p1", "mtn-momo"⟩).2.2.2.2.1
      (by decide) (by decide) (by decide) (by decide)

/-- C9 counterexample: validateAccount does not propagate a failed
token-acquisition result — with a token reply carrying no fields (a 422
token result) it still issues the upstream lookup call and returns the
lookup outcome instead of the token result. -/
theorem c9_counterexample :
    (getAccessToken (.json (JsVal.obj []))).code = STATUS_CODES.UNPROCESSABLE_ENTITY ∧
    (MtnMomo.validateAccount ⟨"g1", "256700000000", some 1000, "p1", "", ""⟩
        (.json (JsVal.obj [])) (.json (JsVal.obj [("name", .str "John Doe")]))).2
      ≠ getAccessToken (.json (JsVal.obj [])) ∧
    Event.lookupCall ∈ (MtnMomo.validateAccount ⟨"g1", "256700000000", some 1000, "p1", "", ""⟩
        (.json (JsVal.obj [])) (.json (JsVal.obj [("name", .str "John Doe")]))).1 := by
  refine ⟨rfl, by decide, by decide⟩

/-- C9 (amended): the token manager answers OK with the upstream body
exactly when it carries truthy access_token, token_type and expires_in,
UNPROCESSABLE_ENTITY otherwise, and INTERNAL_SERVER_ERROR on transport
failure; collect, transfer and the status-check confirmation step
short-circuit on a failed acquisition, returning the token result
unchanged with no initiate or status call and no ledger write —
validateAccount alone does not short-circuit and issues its upstream
lookup regardless. -/
theorem c9_token_acquisition_contract :
    (∀ body : JsVal,
      ((optTruthy (body.get "access_token") && optTruthy (body.get "token_type") &&
          optTruthy (body.get "expires_in")) = true →
        getAccessToken (.json body) = createResponse STATUS_CODES.OK body "") ∧
      ((optTruthy (body.get "access_token") && optTruthy (body.get "token_type") &&
          optTruthy (body.get "expires_in")) = false →
        getAccessToken (.json body)
          = createResponse STATUS_CODES.UNPROCESSABLE_ENTITY body
              "Access Token Details not found")) ∧
    (∀ e : JsVal, getAccessToken (.err e)
      = createResponse STATUS_CODES.INTERNAL_SERVER_ERROR e
          "Access Token creation failed") ∧
    (∀ (st : List TransRecord) (req : MomoReq) (referenceId : String)
        (tokenFetch : FetchOutcome) (initiate : HttpOutcome),
      req.msisdn ≠ "" → amountTruthy req.amount = true →
      (getAccessToken tokenFetch).code ≠ STATUS_CODES.OK →
      MtnMomo.collect st req referenceId tokenFetch initiate
        = ⟨[Event.tokenCall], st, getAccessToken tokenFetch⟩) ∧
    (∀ (st : List TransRecord) (req : MomoReq) (referenceId : String)
        (tokenFetch : FetchOutcome) (initiate : HttpOutcome),
      req.msisdn ≠ "" → amountTruthy req.amount = true →
      (getAccessToken tokenFetch).code ≠ STATUS_CODES.OK →
      MtnMomo.transfer st req referenceId tokenFetch initiate
        = ⟨[Event.tokenCall], st, getAccessToken tokenFetch⟩) ∧
    (∀ (tokenFetch : FetchOutcome) (statusFetch : ConfirmFetch),
      (getAccessToken tokenFetch).code ≠ STATUS_CODES.OK →
      MtnMomo.confirmTransactionStatus tokenFetch statusFetch
        = ([Event.tokenCall], getAccessToken tokenFetch)) ∧
    (∀ (req : MomoReq) (tokenFetch lookupFetch : FetchOutcome),
      req.msisdn ≠ "" →
      Event.lookupCall ∈ (MtnMomo.validateAccount req tokenFetch lookupFetch).1) := by
  refine ⟨?_, ?_, ?_, ?_, ?_, ?_⟩
  · intro body
    constructor
    · intro htr
      simp only [getAccessToken]
      rw [if_pos htr]
    · intro hfa
      simp only [getAccessToken]
      rw [if_neg (by simp [hfa])]
  · intro e
    rfl
  · intro st req referenceId tokenFetch initiate hm ha htokne
    simp only [MtnMomo.collect]
    rw [if_neg hm, if_neg (show ¬ (amountTruthy req.amount = false) from by simp [ha]),
      if_neg htokne]
  · intro st req referenceId tokenFetch initiate hm ha htokne
    simp only [MtnMomo.transfer]
    rw [if_neg hm, if_neg (show ¬ (amountTruthy req.amount = false) from by simp [ha]),
      if_neg htokne]
  · intro tokenFetch statusFetch htokne
    simp only [MtnMomo.confirmTransactionStatus]
    rw [if_neg htokne]
  · intro req tokenFetch lookupFetch hm
    cases lookupFetch with
    | json body =>
        simp only [MtnMomo.validateAccount, hm, ite_false, if_neg hm]
        split <;> simp
    | err e => simp [MtnMomo.validateAccount, hm]

/-- C9 witness: concrete instantiations — a good token reply is classified
OK, a failed acquisition short-circuits collect unchanged, and
validateAccount still performs its lookup. -/
theorem c9_witness :
    getAccessToken (.json (JsVal.obj [("access_token", .str "tok"),
        ("token_type", .str "Bearer"), ("expires_in", .num 3600)]))
      = createResponse STATUS_CODES.OK
          (JsVal.obj [("access_token", .str "tok"), ("token_type", .str "Bearer"),
            ("expires_in", .num 3600)]) "" ∧
    MtnMomo.collect [] ⟨"g1", "256700000000", some 1000, "abc-1", "", ""⟩ "x1"
        (.json (JsVal.obj [])) (.resp 202 "Accepted")
      = ⟨[Event.tokenCall], [], getAccessToken (.json (JsVal.obj []))⟩ ∧
    Event.lookupCall ∈ (MtnMomo.validateAccount ⟨"g1", "256700000000", some 1000, "p1", "", ""⟩
        (.json (JsVal.obj [])) (.json (JsVal.obj [("name", .str "John Doe")]))).1 := by
  refine ⟨(c9_token_acquisition_contract.1 (JsVal.obj [("access_token", .str "tok"),
      ("token_type", .str "Bearer"), ("expires_in", .num 3600)])).1 (by decide),
    c9_token_acquisition_contract.2.2.1 [] ⟨"g1", "256700000000", some 1000, "abc-1", "", ""⟩
      "x1" (.json (JsVal.obj [])) (.resp 202 "Accepted") (by decide) (by decide) (by decide),
    c9_token_acquisition_contract.2.2.2.2.2 ⟨"g1", "256700000000", some 1000, "p1", "", ""⟩
      (.json (JsVal.obj [])) (.json (JsVal.obj [("name", .str "John Doe")])) (by decide)⟩

end Payie
